import Mathlib

/-!
Verification of the multi-book market-making decision core of the sn-79
miner agents (`src/agents/*.py`) against its natural-language specification.

The Python agents are shallowly embedded: pure numeric code is translated to
functions over `ℚ` (or `ℝ` where the source uses `math.log` / `math.sqrt` /
`np.exp`), per-book mutable dictionaries become explicit functional stores,
and the per-tick `respond` control flow becomes explicit list-building
functions.  Each definition's doc comment cites the Python source it embeds.
-/

namespace Sn79

/-- One price level of an order book: the `price`/`quantity` pair published by
the simulator (spec §3 `PriceLevel`; used by every agent as `level.price`,
`level.quantity`). -/
structure Level where
  price : ℚ
  quantity : ℚ
deriving DecidableEq

/-- Order direction as used by the agents (`OrderDirection.BUY` / `SELL`). -/
inductive Side where
  | buy
  | sell
deriving DecidableEq

/-- An outbound order-management intent, the payload of
`FinanceAgentResponse`: `limit_order` (with its time-in-force reduced to the
`ioc` flag and the `postOnly` flag, the fields the claims mention),
`market_order`, and `cancel_orders`. -/
inductive Intent where
  | limit (book : ℤ) (side : Side) (qty : ℚ) (price : ℚ) (ioc : Bool) (postOnly : Bool)
  | market (book : ℤ) (side : Side) (qty : ℚ)
  | cancel (book : ℤ) (ids : List ℤ)
deriving DecidableEq

/-- Python's `round`-to-integer: round half to even (banker's rounding),
exactly the semantics of the builtin `round` the agents call. -/
def roundHalfEven (q : ℚ) : ℤ :=
  if q - ⌊q⌋ < 1/2 then ⌊q⌋
  else if 1/2 < q - ⌊q⌋ then ⌊q⌋ + 1
  else if Even ⌊q⌋ then ⌊q⌋ else ⌊q⌋ + 1

/-- Python's `round(x, n)` for non-negative `n`, over exact rationals. -/
def pyRound (n : ℕ) (x : ℚ) : ℚ :=
  (roundHalfEven (x * 10 ^ n) : ℚ) / 10 ^ n

theorem roundHalfEven_le (q : ℚ) : (roundHalfEven q : ℚ) ≤ q + 1/2 := by
  unfold roundHalfEven
  have hf : ((⌊q⌋ : ℤ) : ℚ) ≤ q := Int.floor_le q
  split_ifs with h1 h2 h3
  · linarith
  · push_cast; linarith
  · linarith
  · have : q - (⌊q⌋ : ℚ) = 1/2 := le_antisymm (not_lt.mp h2) (not_lt.mp h1)
    push_cast
    linarith

theorem le_roundHalfEven (q : ℚ) : q - 1/2 ≤ (roundHalfEven q : ℚ) := by
  unfold roundHalfEven
  have hf : q < (⌊q⌋ : ℚ) + 1 := Int.lt_floor_add_one q
  split_ifs with h1 h2 h3
  · linarith
  · push_cast; linarith
  · have : q - (⌊q⌋ : ℚ) = 1/2 := le_antisymm (not_lt.mp h2) (not_lt.mp h1)
    linarith
  · push_cast; linarith

theorem pyRound_le (n : ℕ) (x : ℚ) : pyRound n x ≤ x + 1 / (2 * 10 ^ n) := by
  unfold pyRound
  have hp : (0:ℚ) < 10 ^ n := by positivity
  rw [div_le_iff₀ hp]
  have := roundHalfEven_le (x * 10 ^ n)
  have : (roundHalfEven (x * 10 ^ n) : ℚ) ≤ x * 10 ^ n + 1/2 := this
  calc (roundHalfEven (x * 10 ^ n) : ℚ) ≤ x * 10 ^ n + 1/2 := this
    _ = (x + 1 / (2 * 10 ^ n)) * 10 ^ n := by field_simp; ring

theorem le_pyRound (n : ℕ) (x : ℚ) : x - 1 / (2 * 10 ^ n) ≤ pyRound n x := by
  unfold pyRound
  have hp : (0:ℚ) < 10 ^ n := by positivity
  rw [le_div_iff₀ hp]
  have := le_roundHalfEven (x * 10 ^ n)
  calc (x - 1 / (2 * 10 ^ n)) * 10 ^ n = x * 10 ^ n - 1/2 := by field_simp; ring
    _ ≤ (roundHalfEven (x * 10 ^ n) : ℚ) := this

/-! ## SignalExtractor: order-book imbalance (claim C5) -/

/-- Sum of `level.quantity` over the top `depth` levels of one side, as in
`OrderBookImbalanceMarketMaker.calculate_order_book_imbalance`
(`sum(level.quantity for level in book.bids[:depth])`). -/
def sideVolume (depth : ℕ) (levels : List Level) : ℚ :=
  ((levels.take depth).map Level.quantity).sum

/-- Embedding of `OrderBookImbalanceMarketMaker.calculate_order_book_imbalance`
(src/agents/OrderBookImbalanceMarketMaker.py lines 138-146): plain quantity
sums over the top `depth` levels, `(bid_volume - ask_volume) / total_volume`,
with `0.0` returned when `total_volume == 0`. -/
def calculate_order_book_imbalance (depth : ℕ) (bids asks : List Level) : ℚ :=
  if sideVolume depth bids + sideVolume depth asks = 0 then 0
  else (sideVolume depth bids - sideVolume depth asks) /
    (sideVolume depth bids + sideVolume depth asks)

theorem sideVolume_nonneg (depth : ℕ) (levels : List Level)
    (h : ∀ l ∈ levels, 0 ≤ l.quantity) : 0 ≤ sideVolume depth levels := by
  apply List.sum_nonneg
  intro q hq
  rcases List.mem_map.mp hq with ⟨l, hl, rfl⟩
  exact h l (List.take_subset depth levels hl)

/-- Exponentially depth-weighted side volume of
`OrderBookMarketMaker.calculate_book_imbalance`
(src/agents/OrderBookMarketMaker.py lines 168-181): level `i` contributes
`quantity * exp(-0.5 * i)` (`decay_lambda = 0.5`).  The recursion carries the
level index explicitly. -/
noncomputable def obmmWeightedVolAux (i : ℕ) : List ℝ → ℝ
  | [] => 0
  | q :: qs => q * Real.exp (-(1/2) * (i : ℝ)) + obmmWeightedVolAux (i + 1) qs

/-- Weighted volume of the top `depth` levels, starting at level index `0`. -/
noncomputable def obmmWeightedVol (depth : ℕ) (qs : List ℝ) : ℝ :=
  obmmWeightedVolAux 0 (qs.take depth)

/-- Embedding of `OrderBookMarketMaker.calculate_book_imbalance`
(src/agents/OrderBookMarketMaker.py lines 150-186): exponentially weighted
bid/ask volumes over the top `depth` levels, returning `0.0` whenever
`total_volume < 1e-8`, else `(bid_volume - ask_volume) / total_volume`.
Only the level quantities matter, so the sides are passed as quantity lists. -/
noncomputable def calculate_book_imbalance (depth : ℕ) (bidQtys askQtys : List ℝ) : ℝ :=
  if obmmWeightedVol depth bidQtys + obmmWeightedVol depth askQtys < 1 / 100000000 then 0
  else (obmmWeightedVol depth bidQtys - obmmWeightedVol depth askQtys) /
    (obmmWeightedVol depth bidQtys + obmmWeightedVol depth askQtys)

/-- Claim C5 (amended): for `OrderBookImbalanceMarketMaker`'s
`calculate_order_book_imbalance` (plain quantity sums over the top `depth`
levels on each side) and snapshots with non-negative level quantities, the
signal equals `(bidVol - askVol) / (bidVol + askVol)` whenever that total is
non-zero, equals `0` when the total volume over those levels is `0` (in
particular for empty books), and always lies in `[-1, 1]`.
(`OrderBookMarketMaker.calculate_book_imbalance` is NOT this signal: it
weights quantities by `exp(-0.5 * level)` and zeroes everything below a
`1e-8` volume epsilon; see the counterexample.) -/
theorem C5_imbalance_props (depth : ℕ) (bids asks : List Level)
    (hb : ∀ l ∈ bids, 0 ≤ l.quantity) (ha : ∀ l ∈ asks, 0 ≤ l.quantity) :
    (sideVolume depth bids + sideVolume depth asks = 0 →
      calculate_order_book_imbalance depth bids asks = 0) ∧
    (sideVolume depth bids + sideVolume depth asks ≠ 0 →
      calculate_order_book_imbalance depth bids asks =
        (sideVolume depth bids - sideVolume depth asks) /
          (sideVolume depth bids + sideVolume depth asks)) ∧
    -1 ≤ calculate_order_book_imbalance depth bids asks ∧
    calculate_order_book_imbalance depth bids asks ≤ 1 := by
  have hbv := sideVolume_nonneg depth bids hb
  have hav := sideVolume_nonneg depth asks ha
  unfold calculate_order_book_imbalance
  refine ⟨fun h0 => by simp [h0], fun h0 => by simp [h0], ?_, ?_⟩
  · split_ifs with h0
    · norm_num
    · have hpos : 0 < sideVolume depth bids + sideVolume depth asks :=
        lt_of_le_of_ne (by linarith) (Ne.symm h0)
      rw [le_div_iff₀ hpos]
      linarith
  · split_ifs with h0
    · norm_num
    · have hpos : 0 < sideVolume depth bids + sideVolume depth asks :=
        lt_of_le_of_ne (by linarith) (Ne.symm h0)
      rw [div_le_one hpos]
      linarith

/-- Witness for C5 at the spec's own scenario (§8): `bids = [(99.0, 2.0)]`,
`asks = [(101.0, 2.0)]`, depth 1 gives imbalance `0`, within bounds. -/
theorem C5_imbalance_props_witness :
    calculate_order_book_imbalance 1 [⟨99, 2⟩] [⟨101, 2⟩] = 0 ∧
    -1 ≤ calculate_order_book_imbalance 1 [⟨99, 2⟩] [⟨101, 2⟩] := by
  have h := C5_imbalance_props 1 [⟨99, 2⟩] [⟨101, 2⟩]
    (by intro l hl; simp at hl; rw [hl]; norm_num)
    (by intro l hl; simp at hl; rw [hl]; norm_num)
  refine ⟨?_, h.2.2.1⟩
  have hb2 : sideVolume 1 [(⟨99, 2⟩ : Level)] = 2 := by norm_num [sideVolume]
  have ha2 : sideVolume 1 [(⟨101, 2⟩ : Level)] = 2 := by norm_num [sideVolume]
  have := h.2.1 (by rw [hb2, ha2]; norm_num)
  rw [this, hb2, ha2]
  norm_num

/-- Counterexample for C5 as stated: `OrderBookMarketMaker`'s imbalance is
also "the imbalance signal" of the program (the claim cites it), yet on the
snapshot with a single bid level of quantity `1e-9` and no asks at depth 1 it
returns `0` (its weighted total volume `1e-9 * exp(0)` is below the `1e-8`
epsilon), while the claim's formula over the same snapshot — computed by
`calculate_order_book_imbalance`, whose total volume `1e-9` is non-zero —
gives `(1e-9 - 0) / 1e-9 = 1 ≠ 0`. -/
theorem C5_obmm_counterexample :
    calculate_book_imbalance 1 [1 / 1000000000] [] = 0 ∧
    calculate_order_book_imbalance 1 [⟨100, 1 / 1000000000⟩] [] = 1 ∧
    (1:ℚ) ≠ 0 := by
  have h1 : obmmWeightedVol 1 [(1 / 1000000000 : ℝ)] = 1 / 1000000000 := by
    show (1 / 1000000000 : ℝ) * Real.exp (-(1/2) * ((0:ℕ) : ℝ)) + obmmWeightedVolAux 1 [] =
      1 / 1000000000
    norm_num [obmmWeightedVolAux, Real.exp_zero]
  have h2 : obmmWeightedVol 1 ([] : List ℝ) = 0 := rfl
  refine ⟨?_, ?_, by norm_num⟩
  · unfold calculate_book_imbalance
    rw [h1, h2]
    norm_num
  · have hb : sideVolume 1 [(⟨100, 1 / 1000000000⟩ : Level)] = 1 / 1000000000 := by
      norm_num [sideVolume]
    have ha : sideVolume 1 ([] : List Level) = 0 := rfl
    unfold calculate_order_book_imbalance
    rw [hb, ha]
    norm_num

/-! ## SignalExtractor: microprice (claim C6) -/

/-- Embedding of `OrderBookImbalanceMarketMaker.calculate_microprice`
(src/agents/OrderBookImbalanceMarketMaker.py lines 165-179): `0.0` if either
side is empty; otherwise the size-weighted top-of-book price
`(best_bid * ask_volume + best_ask * bid_volume) / total_volume`, falling back
to the plain midpoint when the total top-of-book quantity is `0`.
(`DominantImbalanceMM._microprice` is the same computation on the unpacked
best levels.) -/
def calculate_microprice (bids asks : List Level) : ℚ :=
  match bids, asks with
  | b :: _, a :: _ =>
    if b.quantity + a.quantity = 0 then (b.price + a.price) / 2
    else (b.price * a.quantity + a.price * b.quantity) / (b.quantity + a.quantity)
  | _, _ => 0

/-- Claim C6: for every snapshot with a best bid and a best ask (non-negative
top quantities, non-crossed book), the microprice equals
`(bestAsk * bidQty + bestBid * askQty) / (bidQty + askQty)`, falls back to the
plain midpoint `(bestBid + bestAsk) / 2` when the total top-of-book quantity
is `0`, and satisfies `bestBid ≤ microprice ≤ bestAsk`. -/
theorem C6_microprice_props (b a : Level) (bs as' : List Level)
    (hbq : 0 ≤ b.quantity) (haq : 0 ≤ a.quantity) (hba : b.price ≤ a.price) :
    (b.quantity + a.quantity = 0 →
      calculate_microprice (b :: bs) (a :: as') = (b.price + a.price) / 2) ∧
    (b.quantity + a.quantity ≠ 0 →
      calculate_microprice (b :: bs) (a :: as') =
        (a.price * b.quantity + b.price * a.quantity) / (b.quantity + a.quantity)) ∧
    b.price ≤ calculate_microprice (b :: bs) (a :: as') ∧
    calculate_microprice (b :: bs) (a :: as') ≤ a.price := by
  unfold calculate_microprice
  refine ⟨fun h0 => by simp [h0], fun h0 => by simp [h0]; ring, ?_, ?_⟩
  · dsimp only
    split_ifs with h0
    · linarith
    · have hpos : 0 < b.quantity + a.quantity := lt_of_le_of_ne (by linarith) (Ne.symm h0)
      rw [le_div_iff₀ hpos]
      nlinarith
  · dsimp only
    split_ifs with h0
    · linarith
    · have hpos : 0 < b.quantity + a.quantity := lt_of_le_of_ne (by linarith) (Ne.symm h0)
      rw [div_le_iff₀ hpos]
      nlinarith

/-- Witness for C6 at the spec's §8 scenario: `bid = (99.0, 2.0)`,
`ask = (101.0, 2.0)` gives `microprice = 100.0`, between the touch prices. -/
theorem C6_microprice_props_witness :
    calculate_microprice [⟨99, 2⟩] [⟨101, 2⟩] = 100 ∧
    (99:ℚ) ≤ calculate_microprice [⟨99, 2⟩] [⟨101, 2⟩] := by
  have h := C6_microprice_props ⟨99, 2⟩ ⟨101, 2⟩ [] []
    (by norm_num) (by norm_num) (by norm_num)
  refine ⟨?_, h.2.2.1⟩
  rw [h.2.1 (by norm_num)]
  norm_num

/-! ## VolatilityTracker (claim C7) -/

/-- Per-(validator, book) volatility state of `DominantImbalanceMM`: the entry
of `self._last_mid` (absent before the first tick) and of `self._ewma_var`
(defaulting to `0.0` via `.get(book_id, 0.0)`). -/
structure VolState where
  lastMid : Option ℝ
  ewmaVar : ℝ

/-- Embedding of `DominantImbalanceMM._update_vol`
(src/agents/DominantImbalanceMM.py lines 138-153) for one (validator, book)
entry: when a previous mid exists and both `last_mid > 0` and `mid > 0`, the
EWMA variance becomes `(1 - a) * prev + a * (log (mid / last_mid))^2`; any
other case keeps the previous variance.  `last_mid` is then set to `mid` and
the returned volatility is `sqrt (max ewma_var 0)`.  (The Python truthiness
test `if last_mid` is subsumed by `last_mid > 0`.) -/
noncomputable def update_vol (a : ℝ) (s : VolState) (mid : ℝ) : VolState × ℝ :=
  match s.lastMid with
  | some m0 =>
    if 0 < m0 ∧ 0 < mid then
      ⟨⟨some mid, (1 - a) * s.ewmaVar + a * (Real.log (mid / m0)) ^ 2⟩,
        Real.sqrt (max ((1 - a) * s.ewmaVar + a * (Real.log (mid / m0)) ^ 2) 0)⟩
    else ⟨⟨some mid, s.ewmaVar⟩, Real.sqrt (max s.ewmaVar 0)⟩
  | none => ⟨⟨some mid, s.ewmaVar⟩, Real.sqrt (max s.ewmaVar 0)⟩

/-- Claim C7 (amended): in `DominantImbalanceMM._update_vol`, (1) on a tick
with a valid previous mid `m0 > 0` and current mid `m1 > 0` the per-book
variance is updated to `(1 - a) * ewma_var + a * (log (m1 / m0))^2` and the
last mid is set; (2) the first observation for a book leaves the variance at
its current (initialized `0`) value and only sets the last mid; (3) the
reported volatility `sqrt (max ewma_var 0)` is always non-negative; and (4)
from the initial state (no last mid, variance `0`) the volatility reported
before any valid return observation is `0`.  The original claim's "equals 0
only before any valid return observation" is false: a valid observation with
zero log-return also reports `0` (see the counterexample). -/
theorem C7_vol_props :
    (∀ (a v m0 mid : ℝ), 0 < m0 → 0 < mid →
      (update_vol a ⟨some m0, v⟩ mid).1.lastMid = some mid ∧
      (update_vol a ⟨some m0, v⟩ mid).1.ewmaVar =
        (1 - a) * v + a * (Real.log (mid / m0)) ^ 2) ∧
    (∀ (a v mid : ℝ),
      (update_vol a ⟨none, v⟩ mid).1.lastMid = some mid ∧
      (update_vol a ⟨none, v⟩ mid).1.ewmaVar = v) ∧
    (∀ (a : ℝ) (s : VolState) (mid : ℝ), 0 ≤ (update_vol a s mid).2) ∧
    (∀ (a mid : ℝ), (update_vol a ⟨none, 0⟩ mid).2 = 0) := by
  refine ⟨?_, ?_, ?_, ?_⟩
  · intro a v m0 mid hm0 hmid
    constructor
    · simp [update_vol, if_pos (And.intro hm0 hmid)]
    · simp [update_vol, if_pos (And.intro hm0 hmid)]
  · intro a v mid
    exact ⟨rfl, rfl⟩
  · intro a s mid
    unfold update_vol
    rcases s with ⟨lm, v⟩
    cases lm with
    | none => exact Real.sqrt_nonneg _
    | some m0 =>
      dsimp only
      split_ifs <;> exact Real.sqrt_nonneg _
  · intro a mid
    show Real.sqrt (max 0 0) = 0
    simp

/-- Witness for C7: a valid observation with `m0 = 1`, `m1 = 2`, `a = 1/2`
updates the state to last mid `2` and variance `(1/2) * 0 + (1/2) * (log 2)^2`. -/
theorem C7_vol_props_witness :
    (update_vol (1/2) ⟨some 1, 0⟩ 2).1.lastMid = some 2 ∧
    (update_vol (1/2) ⟨some 1, 0⟩ 2).1.ewmaVar =
      (1 - 1/2) * 0 + 1/2 * (Real.log (2 / 1)) ^ 2 := by
  exact C7_vol_props.1 (1/2) 0 1 2 (by norm_num) (by norm_num)

/-- Counterexample for C7 as stated: feed mid `1` twice from the fresh state.
The second call is a valid return observation (previous mid `1 > 0`, current
mid `1 > 0`), yet its log-return is `log 1 = 0`, the variance stays `0`, and
the reported volatility is `0` — so the volatility is not `0` "only before
any valid return observation". -/
theorem C7_zero_return_counterexample :
    (update_vol (1/20) ⟨none, 0⟩ 1).1.lastMid = some 1 ∧
    (update_vol (1/20) (update_vol (1/20) ⟨none, 0⟩ 1).1 1).2 = 0 := by
  have h1 : (update_vol (1/20) ⟨none, 0⟩ 1).1 = ⟨some 1, 0⟩ := rfl
  refine ⟨rfl, ?_⟩
  rw [h1]
  have hpos : (0:ℝ) < 1 ∧ (0:ℝ) < 1 := by norm_num
  simp only [update_vol, if_pos hpos]
  norm_num [Real.log_one]

/-! ## Drawdown kill-switch of `L3MarketMakerAgent.respond` (claim C1) -/

/-- A resting order of an account (`Account.orders` entry): id, side, price
(`None` for unpriced entries, which the agent filters out), and placement
timestamp. -/
structure L3Order where
  id : ℤ
  side : Side
  price : Option ℚ
  timestamp : ℤ
deriving DecidableEq

/-- Per-book account state as read by `L3MarketMakerAgent.respond`:
`own_base`, `own_quote` and the open orders. -/
structure L3Account where
  own_base : ℚ
  own_quote : ℚ
  orders : List L3Order
deriving DecidableEq

/-- A book snapshot as read by `L3MarketMakerAgent._best_levels`: the bids
and asks level lists. -/
structure L3Book where
  bids : List Level
  asks : List Level
deriving DecidableEq

/-- Embedding of `L3MarketMakerAgent._best_levels` reduced to the mid price:
`None` when either side is empty, else `(best_bid + best_ask) / 2`. -/
def l3BestMid (bk : L3Book) : Option ℚ :=
  match bk.bids, bk.asks with
  | b :: _, a :: _ => some ((b.price + a.price) / 2)
  | _, _ => none

/-- Marked-to-mid wealth `own_quote + own_base * mid`
(src/agents/L3MarketMakerAgent.py line 192). -/
def l3Wealth (acct : L3Account) (mid : ℚ) : ℚ :=
  acct.own_quote + acct.own_base * mid

/-- Dictionary lookup `self.accounts.get(book_id)` over the account map. -/
def lookupAcct (accounts : List (ℤ × L3Account)) (book : ℤ) : Option L3Account :=
  (accounts.find? (fun ba => ba.1 = book)).map (fun ba => ba.2)

/-- Embedding of the first pass of `L3MarketMakerAgent.respond`
(src/agents/L3MarketMakerAgent.py lines 172-195): for every book that has an
account and a two-sided top of book, accumulate `(total_pnl, total_w0)` where
the book's baseline `wealth0` defaults to the current wealth when it is still
unset (`bs.wealth0 is None` on the first tick, making that book's pnl `0`). -/
def l3FirstPass (wealth0 : ℤ → Option ℚ) (accounts : List (ℤ × L3Account))
    (books : List (ℤ × L3Book)) : ℚ × ℚ :=
  books.foldl (fun acc bb =>
    match lookupAcct accounts bb.1, l3BestMid bb.2 with
    | some acct, some mid =>
      let w := l3Wealth acct mid
      let w0 := (wealth0 bb.1).getD w
      ⟨acc.1 + (w - w0), acc.2 + w0⟩
    | _, _ => acc) ⟨0, 0⟩

/-- Ids of the priced open orders,
`[o.id for o in account.orders if o.price is not None]`. -/
def pricedIds (os : List L3Order) : List ℤ :=
  (os.filter (fun o => o.price ≠ none)).map (fun o => o.id)

/-- Embedding of the kill-switch body of `L3MarketMakerAgent.respond`
(src/agents/L3MarketMakerAgent.py lines 199-202): for every account with a
non-empty order list, emit one `cancel_orders` instruction carrying the
priced order ids, and nothing else. -/
def l3CancelAll (accounts : List (ℤ × L3Account)) : List Intent :=
  accounts.foldr (fun ba acc =>
    if ba.2.orders.isEmpty then acc
    else Intent.cancel ba.1 (pricedIds ba.2.orders) :: acc) []

/-- Embedding of the top-level control flow of `L3MarketMakerAgent.respond`
(src/agents/L3MarketMakerAgent.py lines 160-205): run the first pass; when
`total_w0 > 0 and total_pnl < -dd_stop_frac * total_w0`, return the cancel-all
response immediately; otherwise return whatever the per-book quoting second
pass produces.  The second pass is abstracted as the `secondPass` argument,
which makes the early-exit structure of the code explicit: the kill-switch is
decided before any book-level quoting work can contribute. -/
def l3Respond (dd_stop_frac : ℚ) (wealth0 : ℤ → Option ℚ)
    (accounts : List (ℤ × L3Account)) (books : List (ℤ × L3Book))
    (secondPass : List Intent) : List Intent :=
  if 0 < (l3FirstPass wealth0 accounts books).2 ∧
      (l3FirstPass wealth0 accounts books).1 <
        -dd_stop_frac * (l3FirstPass wealth0 accounts books).2 then
    l3CancelAll accounts
  else secondPass

theorem l3CancelAll_shape (accounts : List (ℤ × L3Account)) :
    ∀ i ∈ l3CancelAll accounts, ∃ b ids, i = Intent.cancel b ids := by
  induction accounts with
  | nil => intro i hi; cases hi
  | cons ba rest ih =>
    intro i hi
    unfold l3CancelAll at hi
    by_cases h : ba.2.orders.isEmpty
    · rw [List.foldr_cons, if_pos h] at hi
      exact ih i hi
    · rw [List.foldr_cons, if_neg h] at hi
      rcases List.mem_cons.mp hi with h1 | h1
      · exact ⟨ba.1, pricedIds ba.2.orders, h1⟩
      · exact ih i h1

theorem l3CancelAll_covers (accounts : List (ℤ × L3Account)) :
    ∀ ba ∈ accounts, ¬ ba.2.orders.isEmpty →
      Intent.cancel ba.1 (pricedIds ba.2.orders) ∈ l3CancelAll accounts := by
  induction accounts with
  | nil => intro ba hba; cases hba
  | cons hd rest ih =>
    intro ba hba hne
    unfold l3CancelAll
    rcases List.mem_cons.mp hba with h1 | h1
    · subst h1
      rw [List.foldr_cons, if_neg hne]
      exact List.mem_cons_self _ _
    · by_cases h : hd.2.orders.isEmpty
      · rw [List.foldr_cons, if_pos h]
        exact ih ba h1 hne
      · rw [List.foldr_cons, if_neg h]
        exact List.mem_cons_of_mem _ (ih ba h1 hne)

theorem pricedIds_mem (os : List L3Order) (o : L3Order) (ho : o ∈ os)
    (hp : o.price ≠ none) : o.id ∈ pricedIds os := by
  unfold pricedIds
  exact List.mem_map.mpr ⟨o, List.mem_filter.mpr ⟨ho, by simpa using hp⟩, rfl⟩

/-- Claim C1: on every tick whose first pass finds a positive aggregate
baseline wealth `total_w0` and an aggregate loss exceeding the configured
drawdown fraction of it (`total_pnl < -dd_stop_frac * total_w0`), the
response of `L3MarketMakerAgent.respond` is exactly the cancel-all batch,
independent of whatever the per-book quoting pass would have produced (the
kill-switch is decided before any book-level quoting work): it consists only
of `cancel_orders` instructions, one per account with open orders, each
cancelling every priced open order of that book, and contains no placements. -/
theorem C1_killswitch (dd_stop_frac : ℚ) (wealth0 : ℤ → Option ℚ)
    (accounts : List (ℤ × L3Account)) (books : List (ℤ × L3Book))
    (secondPass : List Intent)
    (hw0 : 0 < (l3FirstPass wealth0 accounts books).2)
    (hdd : (l3FirstPass wealth0 accounts books).1 <
      -dd_stop_frac * (l3FirstPass wealth0 accounts books).2) :
    l3Respond dd_stop_frac wealth0 accounts books secondPass = l3CancelAll accounts ∧
    (∀ i ∈ l3Respond dd_stop_frac wealth0 accounts books secondPass,
      ∃ b ids, i = Intent.cancel b ids) ∧
    (∀ ba ∈ accounts, ∀ o ∈ ba.2.orders, o.price ≠ none →
      Intent.cancel ba.1 (pricedIds ba.2.orders) ∈
          l3Respond dd_stop_frac wealth0 accounts books secondPass ∧
        o.id ∈ pricedIds ba.2.orders) := by
  have hresp : l3Respond dd_stop_frac wealth0 accounts books secondPass =
      l3CancelAll accounts := by
    unfold l3Respond
    exact if_pos ⟨hw0, hdd⟩
  refine ⟨hresp, ?_, ?_⟩
  · rw [hresp]
    exact l3CancelAll_shape accounts
  · intro ba hba o ho hp
    have hne : ¬ ba.2.orders.isEmpty := by
      intro h
      rw [List.isEmpty_iff] at h
      rw [h] at ho
      cases ho
    rw [hresp]
    exact ⟨l3CancelAll_covers accounts ba hba hne, pricedIds_mem ba.2.orders o ho hp⟩

/-- Witness for C1: one book, its account holding one priced order, a stored
baseline of `10` against a current wealth of `5` and `dd_stop_frac = 1/50`:
the aggregate pnl `-5` breaches `-(1/50) * 10`, so the tick's response is the
single cancel of order `1` whatever the quoting pass would have emitted. -/
theorem C1_killswitch_witness :
    l3Respond (1/50) (fun _ => some 10) [⟨0, ⟨0, 5, [⟨1, Side.buy, some 1, 0⟩]⟩⟩]
        [⟨0, ⟨[⟨1, 1⟩], [⟨1, 1⟩]⟩⟩] [Intent.limit 0 Side.buy 1 1 false true] =
      l3CancelAll [⟨0, ⟨0, 5, [⟨1, Side.buy, some 1, 0⟩]⟩⟩] := by
  have hfp : l3FirstPass (fun _ => some 10) [⟨0, ⟨0, 5, [⟨1, Side.buy, some 1, 0⟩]⟩⟩]
      [⟨0, ⟨[⟨1, 1⟩], [⟨1, 1⟩]⟩⟩] = ⟨-5, 10⟩ := by
    simp only [l3FirstPass, lookupAcct, l3BestMid, l3Wealth, List.foldl, List.find?,
      List.map, Option.getD]
    norm_num [Prod.ext_iff]
  exact (C1_killswitch (1/50) _ _ _ _ (by rw [hfp]; norm_num) (by rw [hfp]; norm_num)).1

/-! ## Inventory hard-cap rebalancing (claim C2) -/

/-- Embedding of `AdaptiveMarketMakerAgent.place_inventory_rebalancing_order`
(src/agents/AdaptiveMarketMakerAgent.py lines 347-387): return early (no
order) when `abs(inventory) < max_inventory`; otherwise, when
`inventory > max_inventory` emit a SELL IOC limit at `round(mid * 0.999)`
sized `round(inventory - target)`, and in every other case (the `else`
branch, which the code intends for the short side) emit a BUY IOC limit at
`round(mid * 1.001)` sized `round(-inventory + target)`; the size is then
clamped by `min(., max_order_size)` followed by `max(., min_order_size)`. -/
def place_inventory_rebalancing_order (book : ℤ)
    (max_inventory target_inventory max_order_size min_order_size : ℚ)
    (priceDecimals volumeDecimals : ℕ) (inventory midquote : ℚ) : Option Intent :=
  if |inventory| < max_inventory then none
  else if inventory > max_inventory then
    some (Intent.limit book Side.sell
      (max (min (pyRound volumeDecimals (inventory - target_inventory)) max_order_size)
        min_order_size)
      (pyRound priceDecimals (midquote * (999/1000))) true false)
  else
    some (Intent.limit book Side.buy
      (max (min (pyRound volumeDecimals (-inventory + target_inventory)) max_order_size)
        min_order_size)
      (pyRound priceDecimals (midquote * (1001/1000))) true false)

/-- Claim C2 is a code bug in `AdaptiveMarketMakerAgent`: with the default
configuration (`max_inventory = 5`, `target_inventory = 0`,
`max_order_size = 2`, `min_order_size = 0.1`) and an inventory of exactly
`5 = max_inventory` (deviation NOT strictly exceeding the hard cap, second
conjunct), the guard `abs(inventory) < max_inventory` fails, and the
exclusive test `inventory > max_inventory` also fails, so the code falls into
the short-side `else` branch and emits a risk-INCREASING BUY IOC order of
minimum size at `round(100 * 1.001) = 100.1` — although the function's own
docstring says it triggers "only when inventory exceeds max_inventory" and
the spec requires the boundary case to not trigger at all.
(`L3MarketMakerAgent`'s hard cap at lines 249-286 does use the exclusive
comparison `abs(inv) > self.inv_cap_base`.) -/
theorem C2_adaptive_boundary_eval :
    place_inventory_rebalancing_order 0 5 0 2 (1/10) 2 2 5 100 =
      some (Intent.limit 0 Side.buy (1/10) (1001/10) true false) ∧
    ¬ ((5:ℚ) - 0 > 5) := by
  constructor
  · have hq : pyRound 2 (-(5:ℚ) + 0) = -5 := by
      norm_num [pyRound, roundHalfEven]
    have hp : pyRound 2 ((100:ℚ) * (1001/1000)) = 1001/10 := by
      have : (100:ℚ) * (1001/1000) = 1001/10 := by norm_num
      rw [this]
      norm_num [pyRound, roundHalfEven]
    unfold place_inventory_rebalancing_order
    rw [if_neg (by norm_num), if_neg (by norm_num), hq, hp]
    norm_num
  · norm_num

/-! ## ResponseAssembler failure boundary (claim C3) -/

/-- Outcome of running one book's full decision pipeline against the shared
response object: the intents the book appended before finishing or faulting,
and `some message` when an unexpected error was raised (Python exception). -/
def BookRun : Type := List Intent × Option String

/-- Embedding of the per-book loop shape used by `L3MarketMakerAgent.respond`
(src/agents/L3MarketMakerAgent.py lines 205-421) and the other agents whose
book loop carries a `try/except` (`DominantImbalanceMM`,
`EliteImbalanceMarketMaker`, `SmartMarketMaker`, `OrderBookMarketMaker`,
`OrderBookImbalanceMarketMaker`, `AdaptiveMarketMakerAgent`): each book's
pipeline runs inside `try ... except Exception`, so a fault is logged and
swallowed, the intents appended before the fault stay in the response, and
the loop continues with the next book.  The pipeline is abstract because the
claim quantifies over errors raised anywhere in it. -/
def assembleWithBoundary (pipeline : ℤ → BookRun) (books : List ℤ) : List Intent :=
  (books.map (fun b => (pipeline b).1)).flatten

/-- Embedding of the per-book loop shape of `SmartOrderBookAgent.respond`
(src/agents/SmartOrderBookAgent.py lines 53-198) and of
`EliteMarketMaker.respond` (src/agents/EliteMarketMaker.py lines 118-250),
neither of which has ANY try/except around the book pipeline: a raised error
propagates out of `respond`, so the books after the faulting one are never
processed and the venue receives no well-formed response (the exception
aborts the tick). -/
def assembleNoBoundary (pipeline : ℤ → BookRun) : List ℤ → List Intent × Option String
  | [] => ⟨[], none⟩
  | b :: rest =>
    match pipeline b with
    | ⟨is, some e⟩ => ⟨is, some e⟩
    | ⟨is, none⟩ =>
      match assembleNoBoundary pipeline rest with
      | ⟨js, r⟩ => ⟨is ++ js, r⟩

/-- Claim C3 (amended): in the agents that wrap each book's pipeline in a
per-book `try/except` (`L3MarketMakerAgent`, `DominantImbalanceMM`,
`EliteImbalanceMarketMaker`, `SmartMarketMaker`, `OrderBookMarketMaker`,
`OrderBookImbalanceMarketMaker` and `AdaptiveMarketMakerAgent`), an error
raised in one book's pipeline is caught at the book boundary and is
equivalent to that book merely ending early: erasing the error (keeping the
book's pre-fault intents) leaves the tick's response unchanged, so no error
originating in one book's computation affects another book or aborts the
tick, and the venue always receives a well-formed intent list.  Unlike the
original claim, the faulting book still contributes the intents it appended
before the fault (the response object is mutated in place), and two of the
agents — `SmartOrderBookAgent` and `EliteMarketMaker` — have no per-book
boundary at all, so there an error aborts the whole tick (see the
counterexample). -/
theorem C3_boundary_isolation (pipeline : ℤ → BookRun) (books : List ℤ) (b0 : ℤ)
    (e : String) (hfault : (pipeline b0).2 = some e) :
    assembleWithBoundary pipeline books =
      assembleWithBoundary (fun b => if b = b0 then ⟨(pipeline b0).1, none⟩ else pipeline b)
        books := by
  unfold assembleWithBoundary
  congr 1
  apply List.map_congr_left
  intro b _
  by_cases hb : b = b0
  · subst hb
    dsimp only
    rw [if_pos rfl]
  · dsimp only
    rw [if_neg hb]

/-- Witness for C3: with a pipeline that faults on book `0` after emitting
nothing and succeeds on book `1`, the boundary-wrapped response equals the
response of the fault-erased pipeline. -/
theorem C3_boundary_isolation_witness :
    assembleWithBoundary
        (fun b => if b = 0 then ⟨[], some ("boom")⟩ else ⟨[Intent.cancel 1 [5]], none⟩)
        [0, 1] =
      assembleWithBoundary
        (fun b => if b = (0:ℤ) then
            ⟨((fun b => if b = (0:ℤ) then (⟨[], some ("boom")⟩ : BookRun)
              else ⟨[Intent.cancel 1 [5]], none⟩) 0).1, none⟩
          else if b = 0 then ⟨[], some ("boom")⟩ else ⟨[Intent.cancel 1 [5]], none⟩)
        [0, 1] :=
  C3_boundary_isolation
    (fun b => if b = 0 then ⟨[], some ("boom")⟩ else ⟨[Intent.cancel 1 [5]], none⟩)
    [0, 1] 0 ("boom") rfl

/-- Counterexample for C3 as stated: `SmartOrderBookAgent.respond` and
`EliteMarketMaker.respond` have no per-book failure boundary.  With a
pipeline that raises on book `0` and produces a cancel for book `1`, their
no-boundary loop aborts the tick with the error (`some ("boom")`), book `1`
is never processed and its intent is lost, and the venue receives no
well-formed response — while the same pipeline under a boundary still yields
book 1's intent.  A third conjunct shows the "contributes no intents" part is
also false for the boundary-wrapped agents: a book that faults after
appending a cancel still contributes it. -/
theorem C3_no_boundary_counterexample :
    assembleNoBoundary
        (fun b => if b = 0 then ⟨[], some ("boom")⟩ else ⟨[Intent.cancel 1 [5]], none⟩)
        [0, 1] = ⟨[], some ("boom")⟩ ∧
    assembleWithBoundary
        (fun b => if b = 0 then ⟨[], some ("boom")⟩ else ⟨[Intent.cancel 1 [5]], none⟩)
        [0, 1] = [Intent.cancel 1 [5]] ∧
    assembleWithBoundary (fun _ => ⟨[Intent.cancel 0 [1]], some ("late")⟩) [0] =
      [Intent.cancel 0 [1]] := by
  refine ⟨?_, ?_, rfl⟩
  · rfl
  · rfl

/-! ## QuotePricingEngine non-crossing invariant (claim C4) -/

theorem side_buy_ne_sell : (Side.buy = Side.sell) ↔ False :=
  ⟨fun h => Side.noConfusion h, False.elim⟩

theorem side_sell_ne_buy : (Side.sell = Side.buy) ↔ False :=
  ⟨fun h => Side.noConfusion h, False.elim⟩

/-- Clamped bid of `DominantImbalanceMM.respond` line 254/256:
`round(min(desired_bid, best_ask - tick), priceDecimals)`. -/
def dominantClampBid (pd : ℕ) (tick best_ask desired_bid : ℚ) : ℚ :=
  pyRound pd (min desired_bid (best_ask - tick))

/-- Clamped ask of `DominantImbalanceMM.respond` line 255/257:
`round(max(desired_ask, best_bid + tick), priceDecimals)`. -/
def dominantClampAsk (pd : ℕ) (tick best_bid desired_ask : ℚ) : ℚ :=
  pyRound pd (max desired_ask (best_bid + tick))

/-- Recovery bid of `DominantImbalanceMM.respond` line 261:
`round(min(best_bid, ask_px - tick), priceDecimals)`. -/
def dominantRecoverBid (pd : ℕ) (tick best_bid ask_px : ℚ) : ℚ :=
  pyRound pd (min best_bid (ask_px - tick))

/-- Recovery ask of `DominantImbalanceMM.respond` line 262:
`round(max(best_ask, bid_px + tick), priceDecimals)`. -/
def dominantRecoverAsk (pd : ℕ) (tick best_ask bid_px : ℚ) : ℚ :=
  pyRound pd (max best_ask (bid_px + tick))

/-- Embedding of the price derivation of `DominantImbalanceMM.respond`
(src/agents/DominantImbalanceMM.py lines 247-264): clamp the desired quotes
to the maker-side bounds `best_ask - tick` / `best_bid + tick` and round; if
the pair crosses (`bid_px >= ask_px`), recover by re-anchoring the bid to
`round(min(best_bid, ask_px - tick))` and the ask to
`round(max(best_ask, bid_px + tick))`; if the pair still crosses, skip the
book (`continue`, modelled as `none`). -/
def dominantQuotePair (pd : ℕ) (tick best_bid best_ask desired_bid desired_ask : ℚ) :
    Option (ℚ × ℚ) :=
  if dominantClampAsk pd tick best_bid desired_ask ≤
      dominantClampBid pd tick best_ask desired_bid then
    if dominantRecoverAsk pd tick best_ask
          (dominantRecoverBid pd tick best_bid (dominantClampAsk pd tick best_bid desired_ask)) ≤
        dominantRecoverBid pd tick best_bid (dominantClampAsk pd tick best_bid desired_ask) then
      none
    else
      some ⟨dominantRecoverBid pd tick best_bid (dominantClampAsk pd tick best_bid desired_ask),
        dominantRecoverAsk pd tick best_ask
          (dominantRecoverBid pd tick best_bid (dominantClampAsk pd tick best_bid desired_ask))⟩
  else
    some ⟨dominantClampBid pd tick best_ask desired_bid,
      dominantClampAsk pd tick best_bid desired_ask⟩

/-- Modelled from the spec: "If after clamping `bid_price ≥ ask_price`, widen
by one tick symmetrically; if still invalid, skip quoting this book for this
tick" — the same clamped pair as `dominantQuotePair`, but with the recovery
step literally widening each side by one tick (`bid - tick`, `ask + tick`).
Used only to compare the spec's described mechanism with the code's. -/
def specWidenPair (pd : ℕ) (tick best_bid best_ask desired_bid desired_ask : ℚ) :
    Option (ℚ × ℚ) :=
  if dominantClampAsk pd tick best_bid desired_ask ≤
      dominantClampBid pd tick best_ask desired_bid then
    if dominantClampAsk pd tick best_bid desired_ask + tick ≤
        dominantClampBid pd tick best_ask desired_bid - tick then
      none
    else
      some ⟨dominantClampBid pd tick best_ask desired_bid - tick,
        dominantClampAsk pd tick best_bid desired_ask + tick⟩
  else
    some ⟨dominantClampBid pd tick best_ask desired_bid,
      dominantClampAsk pd tick best_bid desired_ask⟩

/-- Embedding of the order emission of `DominantImbalanceMM.respond`
(src/agents/DominantImbalanceMM.py lines 266-335): on a valid pair, either
one-sided quoting (prefer the inventory-reducing side, else follow the flow
sign) or two-sided quoting with both prices of the pair. -/
def dominantEmit (book : ℤ) (qty : ℚ) (one_sided : Bool) (inv_ratio flow : ℚ) :
    Option (ℚ × ℚ) → List Intent
  | none => []
  | some ⟨bid_px, ask_px⟩ =>
    if one_sided then
      if inv_ratio > 0 then [Intent.limit book Side.sell qty ask_px false false]
      else if inv_ratio < 0 then [Intent.limit book Side.buy qty bid_px false false]
      else if flow ≥ 0 then [Intent.limit book Side.buy qty bid_px false false]
      else [Intent.limit book Side.sell qty ask_px false false]
    else
      [Intent.limit book Side.buy qty bid_px false false,
        Intent.limit book Side.sell qty ask_px false false]

/-- Embedding of one ladder level of `SmartMarketMaker.respond`
(src/agents/SmartMarketMaker.py lines 147-187): round the level's bid/ask and
quantity; emit nothing when `qty <= 0` or when `bid_p >= ask_p` (the level is
skipped), else emit both post-only GTT orders. -/
def smartLevelEmit (pd vd : ℕ) (book : ℤ) (center half_spread qty_per_order : ℚ) :
    List Intent :=
  if pyRound vd qty_per_order ≤ 0 then []
  else if pyRound pd (center + half_spread) ≤ pyRound pd (center - half_spread) then []
  else
    [Intent.limit book Side.buy (pyRound vd qty_per_order)
        (pyRound pd (center - half_spread)) false true,
      Intent.limit book Side.sell (pyRound vd qty_per_order)
        (pyRound pd (center + half_spread)) false true]

theorem dominantQuotePair_lt (pd : ℕ) (tick bB bA dB dA b a : ℚ)
    (hsome : dominantQuotePair pd tick bB bA dB dA = some ⟨b, a⟩) : b < a := by
  unfold dominantQuotePair at hsome
  by_cases h1 : dominantClampAsk pd tick bB dA ≤ dominantClampBid pd tick bA dB
  · rw [if_pos h1] at hsome
    by_cases h2 : dominantRecoverAsk pd tick bA
          (dominantRecoverBid pd tick bB (dominantClampAsk pd tick bB dA)) ≤
        dominantRecoverBid pd tick bB (dominantClampAsk pd tick bB dA)
    · rw [if_pos h2] at hsome
      exact Option.noConfusion hsome
    · rw [if_neg h2] at hsome
      injection hsome with h
      rw [show b = dominantRecoverBid pd tick bB (dominantClampAsk pd tick bB dA) from
          (congrArg Prod.fst h).symm,
        show a = dominantRecoverAsk pd tick bA
            (dominantRecoverBid pd tick bB (dominantClampAsk pd tick bB dA)) from
          (congrArg Prod.snd h).symm]
      exact not_le.mp h2
  · rw [if_neg h1] at hsome
    injection hsome with h
    rw [show b = dominantClampBid pd tick bA dB from (congrArg Prod.fst h).symm,
      show a = dominantClampAsk pd tick bB dA from (congrArg Prod.snd h).symm]
    exact not_le.mp h1

theorem dominantClampBid_lt (pd : ℕ) (tick bA dB : ℚ) (htick : tick = 1 / 10 ^ pd) :
    dominantClampBid pd tick bA dB < bA := by
  have htpos : 0 < tick := by rw [htick]; positivity
  have h3 := pyRound_le pd (min dB (bA - tick))
  have hhalf : (1:ℚ) / (2 * 10 ^ pd) = tick / 2 := by rw [htick]; ring
  rw [hhalf] at h3
  have h4 : min dB (bA - tick) ≤ bA - tick := min_le_right _ _
  unfold dominantClampBid
  linarith

theorem lt_dominantClampAsk (pd : ℕ) (tick bB dA : ℚ) (htick : tick = 1 / 10 ^ pd) :
    bB < dominantClampAsk pd tick bB dA := by
  have htpos : 0 < tick := by rw [htick]; positivity
  have h3 := le_pyRound pd (max dA (bB + tick))
  have hhalf : (1:ℚ) / (2 * 10 ^ pd) = tick / 2 := by rw [htick]; ring
  rw [hhalf] at h3
  have h4 : bB + tick ≤ max dA (bB + tick) := le_max_right _ _
  unfold dominantClampAsk
  linarith

theorem dominantRecoverBid_lt (pd : ℕ) (tick bB bA ask1 : ℚ) (htick : tick = 1 / 10 ^ pd)
    (hspread : bB + tick ≤ bA) : dominantRecoverBid pd tick bB ask1 < bA := by
  have htpos : 0 < tick := by rw [htick]; positivity
  have h3 := pyRound_le pd (min bB (ask1 - tick))
  have hhalf : (1:ℚ) / (2 * 10 ^ pd) = tick / 2 := by rw [htick]; ring
  rw [hhalf] at h3
  have h4 : min bB (ask1 - tick) ≤ bB := min_le_left _ _
  unfold dominantRecoverBid
  linarith

theorem lt_dominantRecoverAsk (pd : ℕ) (tick bB bA bid2 : ℚ) (htick : tick = 1 / 10 ^ pd)
    (hspread : bB + tick ≤ bA) : bB < dominantRecoverAsk pd tick bA bid2 := by
  have htpos : 0 < tick := by rw [htick]; positivity
  have h3 := le_pyRound pd (max bA (bid2 + tick))
  have hhalf : (1:ℚ) / (2 * 10 ^ pd) = tick / 2 := by rw [htick]; ring
  rw [hhalf] at h3
  have h4 : bA ≤ max bA (bid2 + tick) := le_max_left _ _
  unfold dominantRecoverAsk
  linarith

theorem dominantQuotePair_noncrossing (pd : ℕ) (tick bB bA dB dA b a : ℚ)
    (htick : tick = 1 / 10 ^ pd) (hspread : bB + tick ≤ bA)
    (hsome : dominantQuotePair pd tick bB bA dB dA = some ⟨b, a⟩) :
    b < bA ∧ bB < a := by
  unfold dominantQuotePair at hsome
  by_cases h1 : dominantClampAsk pd tick bB dA ≤ dominantClampBid pd tick bA dB
  · rw [if_pos h1] at hsome
    by_cases h2 : dominantRecoverAsk pd tick bA
          (dominantRecoverBid pd tick bB (dominantClampAsk pd tick bB dA)) ≤
        dominantRecoverBid pd tick bB (dominantClampAsk pd tick bB dA)
    · rw [if_pos h2] at hsome
      exact Option.noConfusion hsome
    · rw [if_neg h2] at hsome
      injection hsome with h
      rw [show b = dominantRecoverBid pd tick bB (dominantClampAsk pd tick bB dA) from
          (congrArg Prod.fst h).symm,
        show a = dominantRecoverAsk pd tick bA
            (dominantRecoverBid pd tick bB (dominantClampAsk pd tick bB dA)) from
          (congrArg Prod.snd h).symm]
      exact ⟨dominantRecoverBid_lt pd tick bB bA _ htick hspread,
        lt_dominantRecoverAsk pd tick bB bA _ htick hspread⟩
  · rw [if_neg h1] at hsome
    injection hsome with h
    rw [show b = dominantClampBid pd tick bA dB from (congrArg Prod.fst h).symm,
      show a = dominantClampAsk pd tick bB dA from (congrArg Prod.snd h).symm]
    exact ⟨dominantClampBid_lt pd tick bA dB htick, lt_dominantClampAsk pd tick bB dA htick⟩

/-- Claim C4 (amended): (1) in `DominantImbalanceMM.respond`, whenever the
emission for a book contains both a buy and a sell limit order, the bid price
is strictly below the ask price; (2) with `tick = 10^-priceDecimals` and a
top of book at least one tick wide, any emitted pair stays non-crossing with
the touch (`bid < best_ask` and `ask > best_bid`); and (3) each
`SmartMarketMaker` ladder level either emits nothing or emits a bid/ask pair
with `bid_p < ask_p`.  The recovery step, however, is NOT the spec's "widen
by one tick symmetrically": the code re-anchors the pair to the touch (see
the counterexample), and `SmartMarketMaker` performs no touch-clamping at
all, only the `bid_p ≥ ask_p` skip. -/
theorem C4_quote_invariants :
    (∀ (pd : ℕ) (tick bB bA dB dA qty inv_ratio flow : ℚ) (book bk bk' : ℤ)
      (one_sided : Bool) (qb qa pb pa : ℚ) (io po io' po' : Bool),
      Intent.limit bk Side.buy qb pb io po ∈
          dominantEmit book qty one_sided inv_ratio flow
            (dominantQuotePair pd tick bB bA dB dA) →
      Intent.limit bk' Side.sell qa pa io' po' ∈
          dominantEmit book qty one_sided inv_ratio flow
            (dominantQuotePair pd tick bB bA dB dA) →
      pb < pa) ∧
    (∀ (pd : ℕ) (tick bB bA dB dA b a : ℚ), tick = 1 / 10 ^ pd → bB + tick ≤ bA →
      dominantQuotePair pd tick bB bA dB dA = some ⟨b, a⟩ → b < bA ∧ bB < a) ∧
    (∀ (pd vd : ℕ) (book : ℤ) (center half_spread qty_per_order : ℚ),
      smartLevelEmit pd vd book center half_spread qty_per_order = [] ∨
      ∃ q pb pa, pb < pa ∧
        smartLevelEmit pd vd book center half_spread qty_per_order =
          [Intent.limit book Side.buy q pb false true,
            Intent.limit book Side.sell q pa false true]) := by
  refine ⟨?_, ?_, ?_⟩
  · intro pd tick bB bA dB dA qty inv_ratio flow book bk bk' one_sided qb qa pb pa
      io po io' po' hbuy hsell
    rcases hp : dominantQuotePair pd tick bB bA dB dA with _ | ⟨b, a⟩
    · rw [hp] at hbuy
      exact absurd hbuy (List.not_mem_nil _)
    · rw [hp] at hbuy hsell
      have hlt := dominantQuotePair_lt pd tick bB bA dB dA b a hp
      unfold dominantEmit at hbuy hsell
      split_ifs at hbuy hsell <;>
        simp only [List.mem_singleton, List.mem_cons, List.not_mem_nil, or_false,
          Intent.limit.injEq, side_buy_ne_sell, side_sell_ne_buy, false_and, and_false,
          false_or, or_false] at hbuy hsell
      all_goals
        obtain ⟨-, -, -, hpb, -, -⟩ := hbuy
      all_goals
        obtain ⟨-, -, -, hps, -, -⟩ := hsell
      all_goals
        rw [hpb, hps]
        exact hlt
  · intro pd tick bB bA dB dA b a htick hspread hsome
    exact dominantQuotePair_noncrossing pd tick bB bA dB dA b a htick hspread hsome
  · intro pd vd book center half_spread qty_per_order
    unfold smartLevelEmit
    split_ifs with h1 h2
    · exact Or.inl rfl
    · exact Or.inl rfl
    · exact Or.inr ⟨pyRound vd qty_per_order, pyRound pd (center - half_spread),
        pyRound pd (center + half_spread), not_le.mp h2, rfl⟩

/-- Witness for C4: a concrete two-sided emission (`pd = 2`, `tick = 0.01`,
touch `100 / 100.05`, desired quotes `100.02 / 100.08`) contains a buy at
`100.02` and a sell at `100.08`, and the theorem yields `100.02 < 100.08`;
the non-crossing part applies to the same pair. -/
theorem C4_quote_invariants_witness :
    (10002/100 : ℚ) < 10008/100 ∧
    ((10002/100 : ℚ) < 10005/100 ∧ (100 : ℚ) < 10008/100) := by
  have e1 : dominantClampBid 2 (1/100) (10005/100) (10002/100) = 10002/100 := by
    unfold dominantClampBid
    rw [show min (10002/100 : ℚ) (10005/100 - 1/100) = 10002/100 by
      rw [min_def]; norm_num]
    norm_num [pyRound, roundHalfEven]
  have e2 : dominantClampAsk 2 (1/100) 100 (10008/100) = 10008/100 := by
    unfold dominantClampAsk
    rw [show max (10008/100 : ℚ) ((100 : ℚ) + 1/100) = 10008/100 by
      rw [max_def]; norm_num]
    norm_num [pyRound, roundHalfEven]
  have hpair : dominantQuotePair 2 (1/100) 100 (10005/100) (10002/100) (10008/100) =
      some ⟨10002/100, 10008/100⟩ := by
    unfold dominantQuotePair
    rw [e1, e2, if_neg (by norm_num)]
  constructor
  · exact C4_quote_invariants.1 2 (1/100) 100 (10005/100) (10002/100) (10008/100)
      1 0 0 0 0 0 false 1 1 (10002/100) (10008/100) false false false false
      (by rw [hpair]; unfold dominantEmit; simp)
      (by rw [hpair]; unfold dominantEmit; simp)
  · exact C4_quote_invariants.2.1 2 (1/100) 100 (10005/100) (10002/100) (10008/100)
      (10002/100) (10008/100) (by norm_num) (by norm_num) hpair

/-- Counterexample for C4 as stated: with `pd = 2`, `tick = 0.01`, touch
`best_bid = 100`, `best_ask = 100.05` and desired quotes `bid 100.04`,
`ask 100.01`, the clamped pair crosses (`100.04 ≥ 100.01`), and the spec's
described mechanism — widen by one tick symmetrically to `(100.03, 100.02)`,
still invalid, so skip the book — yields no quotes, while the code
re-anchors to the touch and quotes `(100.00, 100.05)`.  The code's recovery
is therefore not the claimed symmetric one-tick widening. -/
theorem C4_widen_counterexample :
    dominantQuotePair 2 (1/100) 100 (10005/100) (10004/100) (10001/100) =
      some ⟨100, 10005/100⟩ ∧
    specWidenPair 2 (1/100) 100 (10005/100) (10004/100) (10001/100) = none := by
  have e1 : dominantClampBid 2 (1/100) (10005/100) (10004/100) = 10004/100 := by
    unfold dominantClampBid
    rw [show min (10004/100 : ℚ) (10005/100 - 1/100) = 10004/100 by
      rw [min_def]; norm_num]
    norm_num [pyRound, roundHalfEven]
  have e2 : dominantClampAsk 2 (1/100) 100 (10001/100) = 10001/100 := by
    unfold dominantClampAsk
    rw [show max (10001/100 : ℚ) ((100 : ℚ) + 1/100) = 10001/100 by
      rw [max_def]; norm_num]
    norm_num [pyRound, roundHalfEven]
  have e3 : dominantRecoverBid 2 (1/100) 100 (10001/100) = 100 := by
    unfold dominantRecoverBid
    rw [show min (100 : ℚ) ((10001/100 : ℚ) - 1/100) = 100 by
      rw [min_def]; norm_num]
    norm_num [pyRound, roundHalfEven]
  have e4 : dominantRecoverAsk 2 (1/100) (10005/100) 100 = 10005/100 := by
    unfold dominantRecoverAsk
    rw [show max (10005/100 : ℚ) ((100 : ℚ) + 1/100) = 10005/100 by
      rw [max_def]; norm_num]
    norm_num [pyRound, roundHalfEven]
  constructor
  · unfold dominantQuotePair
    rw [e1, e2, if_pos (by norm_num), e3, e4, if_neg (by norm_num)]
  · unfold specWidenPair
    rw [e1, e2, if_pos (by norm_num), if_pos (by norm_num)]

/-! ## OrderLifecycleManager cancel/replace idempotence (claim C8) -/

/-- Embedding of the per-side stale test of `L3MarketMakerAgent.respond`
(src/agents/L3MarketMakerAgent.py lines 364-371): an existing best order on a
side is cancelled iff the side is suppressed (`not quote_side`), or its age
`now - timestamp` exceeds `max_age`, or its price drifted at least
`reprice_ticks * tick` (`tol`) from the freshly computed quote. -/
def l3StaleOrMisaligned (now ts max_age : ℤ) (tol target o_price : ℚ)
    (quote : Bool) : Bool :=
  !quote || decide (max_age < now - ts) || decide (tol ≤ |o_price - target|)

/-- Embedding of the per-side lifecycle plan of `L3MarketMakerAgent.respond`
(src/agents/L3MarketMakerAgent.py lines 356-407) for one side, given the best
resting order of that side as `(id, price, timestamp)`: the cancel list for
that side, and whether a new order is placed there (`quote_side and
qty >= min_order_size and (best is None or best.id in cancel_ids)`; the best
order's id is in the cancel list exactly when its own stale test fired, ids
being unique per account). -/
def l3SidePlan (now max_age : ℤ) (tol target min_order_size qty : ℚ) (quote : Bool)
    (best : Option (ℤ × ℚ × ℤ)) : List ℤ × Bool :=
  match best with
  | none => ⟨[], quote && decide (min_order_size ≤ qty)⟩
  | some ⟨i, p, ts⟩ =>
    if l3StaleOrMisaligned now ts max_age tol target p quote then
      ⟨[i], quote && decide (min_order_size ≤ qty)⟩
    else
      ⟨[], false⟩

/-- Embedding of the unconditional re-quote phase of
`EliteMarketMaker.respond` (src/agents/EliteMarketMaker.py lines 124-136):
before any quoting, every account with a non-empty order list gets one
`cancel_orders` instruction carrying ALL its order ids — independent of the
snapshot, the desired quotes, or any price tolerance. -/
def eliteCancelAllPhase (accounts : List (ℤ × List L3Order)) : List Intent :=
  accounts.foldr (fun ba acc =>
    if ba.2.isEmpty then acc
    else if (ba.2.map (fun o => o.id)).isEmpty then acc
    else Intent.cancel ba.1 (ba.2.map (fun o => o.id)) :: acc) []

/-- Claim C8 (amended): in `L3MarketMakerAgent`, a second run on the same
snapshot and account state is idempotent: if a side is quotable and its best
resting order sits within the reprice tolerance of the freshly computed quote
(`|price - target| < tol`, in particular drift `0` when the snapshot is
unchanged) and is not stale (`now - ts ≤ max_age`), then that side's plan
cancels nothing and places nothing — no spurious churn.
`EliteMarketMaker`, however, cancels every resting order on every tick
regardless of tolerance (see the counterexample). -/
theorem C8_l3_idempotent (now ts max_age : ℤ) (tol target min_order_size qty p : ℚ)
    (i : ℤ) (htol : |p - target| < tol) (hage : now - ts ≤ max_age) :
    l3SidePlan now max_age tol target min_order_size qty true (some ⟨i, p, ts⟩) =
      ⟨[], false⟩ := by
  unfold l3SidePlan l3StaleOrMisaligned
  dsimp only
  rw [if_neg]
  simp only [Bool.not_true, Bool.false_or, Bool.or_eq_true, decide_eq_true_eq]
  push_neg
  exact ⟨hage, htol⟩

/-- Witness for C8: a resting bid with zero price drift and age `5 ≤ 100`
under tolerance `0.01` is kept and not replaced. -/
theorem C8_l3_idempotent_witness :
    l3SidePlan 10 100 (1/100) 100 (1/5) 1 true (some ⟨3, 100, 5⟩) = ⟨[], false⟩ :=
  C8_l3_idempotent 10 5 100 (1/100) 100 (1/5) 1 100 3 (by norm_num) (by norm_num)

/-- Counterexample for C8 as stated: `EliteMarketMaker.respond` re-runs on an
unchanged state with a resting order (id `7`) sitting at exactly the price the
strategy would quote again (drift `0`, within any tolerance), yet its
unconditional first phase cancels it — the claim's "the second run cancels no
resting order on a side that already has an acceptable resting order within
tolerance" is false for this cited implementation. -/
theorem C8_elite_churn_counterexample :
    eliteCancelAllPhase [⟨0, [⟨7, Side.buy, some 100, 0⟩]⟩] =
      [Intent.cancel 0 [7]] := rfl

/-! ## PerBookStateStore partitioning (claim C9) -/

/-- Embedding of the per-(validator, book) last-mid store write of
`DominantImbalanceMM._update_vol` (src/agents/DominantImbalanceMM.py line
152): `self._last_mid[validator][book_id] = mid` on the nested
validator -> book -> float dictionary, every other key untouched. -/
def dmSetLastMid (st : String → ℤ → Option ℚ) (validator : String) (book : ℤ)
    (mid : ℚ) : String → ℤ → Option ℚ :=
  fun v b => if v = validator ∧ b = book then some mid else st v b

/-- Bounded history append of a `deque(maxlen = n)`: push right, drop from
the left beyond `n` entries. -/
def pushMax (n : ℕ) (xs : List ℚ) (x : ℚ) : List ℚ :=
  ((xs ++ [x]).reverse.take n).reverse

/-- Embedding of the price-history write of
`EliteMarketMaker.calculate_volatility` (src/agents/EliteMarketMaker.py lines
87-101): `self.price_history[book_id].append(current_price)` on a
`deque(maxlen=20)` — the store is keyed by `book_id` ONLY, with no session or
validator component. -/
def elitePushPrice (hist : ℤ → List ℚ) (book : ℤ) (price : ℚ) : ℤ → List ℚ :=
  fun b => if b = book then pushMax 20 (hist b) price else hist b

/-- State read for the spec's `(session, book)` key against
`EliteMarketMaker`'s store: the session component is ignored because the
Python dictionary has no such key. -/
def eliteHistFor (_session : String) (book : ℤ) (hist : ℤ → List ℚ) : List ℚ :=
  hist book

/-- Embedding of the shared mid-price history of `SmartOrderBookAgent`
(src/agents/SmartOrderBookAgent.py lines 29 and 65):
`self.mid_price_history.append(mid_price)` during the processing of EVERY
book — one single `deque(maxlen=window_size)` (default 20) for all books and
sessions. -/
def sobaPushMid (hist : List ℚ) (mid : ℚ) : List ℚ :=
  pushMax 20 hist mid

/-- State read for the spec's `(session, book)` key against
`SmartOrderBookAgent`'s store: both components are ignored because the agent
keeps one global history. -/
def sobaHistFor (_session : String) (_book : ℤ) (hist : List ℚ) : List ℚ :=
  hist

/-- Claim C9 (amended): the stores that ARE keyed by `(validator, book)` are
strictly partitioned — in `DominantImbalanceMM`, writing the last mid for one
`(validator, book)` key leaves the stored value of every other key unchanged.
But the claim fails for the cited sources: `EliteMarketMaker` keys its price
history by book only (sessions share state) and `SmartOrderBookAgent` keeps a
single history shared by all books and sessions (see the counterexample). -/
theorem C9_partition_frame (st : String → ℤ → Option ℚ) (validator : String)
    (book : ℤ) (mid : ℚ) (v : String) (b : ℤ)
    (hne : ¬(v = validator ∧ b = book)) :
    dmSetLastMid st validator book mid v b = st v b := by
  unfold dmSetLastMid
  exact if_neg hne

/-- Witness for C9: updating key `("A", 1)` leaves key `("B", 2)` unchanged. -/
theorem C9_partition_frame_witness :
    dmSetLastMid (fun _ _ => none) ("A") 1 5 ("B") 2 = none :=
  C9_partition_frame (fun _ _ => none) ("A") 1 5 ("B") 2 (by simp)

/-- Counterexample for C9 as stated: processing a tick for one `(session,
book)` key changes the stored state of a DIFFERENT key.  In
`EliteMarketMaker`, the history write for session `"A"`, book `7` changes
what the distinct key `("B", 7)` reads (from `[]` to `[100]`).  In
`SmartOrderBookAgent`, processing book `0` changes the history that book `1`
of the same session reads. -/
theorem C9_shared_state_counterexample :
    (("A", (7:ℤ)) ≠ ("B", (7:ℤ)) ∧
      eliteHistFor ("B") 7 (elitePushPrice (fun _ => []) 7 100) ≠
        eliteHistFor ("B") 7 (fun _ => [])) ∧
    (((0:ℤ)) ≠ ((1:ℤ)) ∧
      sobaHistFor ("A") 1 (sobaPushMid [] 100) ≠ sobaHistFor ("A") 1 []) := by
  constructor
  · constructor
    · intro h
      exact absurd (congrArg Prod.fst h) (by decide)
    · show (if (7:ℤ) = 7 then pushMax 20 [] 100 else []) ≠ []
      rw [if_pos rfl]
      intro h
      exact List.noConfusion h
  · constructor
    · norm_num
    · show pushMax 20 [] 100 ≠ []
      intro h
      exact List.noConfusion h

/-! ## Balance-guarded placements (claim C10) -/

/-- Embedding of the quote-placement tail of
`EliteImbalanceMarketMaker.respond` (src/agents/EliteImbalanceMarketMaker.py
lines 351-373): when fees are acceptable, place the bid only if
`quote_balance.free >= bid_qty * desired_bid` and the ask only if
`base_balance.free >= ask_qty` (both sides also require a positive desired
price and quantity). -/
def eliteImbPlacements (fees_too_high : Bool) (book : ℤ)
    (desired_bid desired_ask bid_qty ask_qty free_quote free_base : ℚ) : List Intent :=
  if fees_too_high then []
  else
    (if 0 < desired_bid ∧ 0 < bid_qty ∧ bid_qty * desired_bid ≤ free_quote then
      [Intent.limit book Side.buy bid_qty desired_bid false false] else []) ++
    (if 0 < desired_ask ∧ 0 < ask_qty ∧ ask_qty ≤ free_base then
      [Intent.limit book Side.sell ask_qty desired_ask false false] else [])

/-- Embedding of the order placement of `EliteMarketMaker.respond`
(src/agents/EliteMarketMaker.py lines 227-248): place the bid only if
`my_bid > 0 and free_quote > my_bid * order_quantity`, the ask only if
`my_ask > 0 and free_base >= order_quantity`. -/
def eliteMMPlacements (book : ℤ) (my_bid my_ask order_quantity free_base free_quote : ℚ) :
    List Intent :=
  (if 0 < my_bid ∧ my_bid * order_quantity < free_quote then
    [Intent.limit book Side.buy order_quantity my_bid false false] else []) ++
  (if 0 < my_ask ∧ order_quantity ≤ free_base then
    [Intent.limit book Side.sell order_quantity my_ask false false] else [])

/-- Claim C10: in both `EliteImbalanceMarketMaker` and `EliteMarketMaker`, a
buy limit order is emitted only if the account's free quote balance is at
least `price * quantity`, and a sell limit order only if the free base
balance is at least the quantity — emitted placements never exceed the free
balances.  (`EliteMarketMaker`'s bid guard is even strict.) -/
theorem C10_balance_guards :
    (∀ (fth : Bool) (book bk : ℤ) (dB dA bq aq fq fb q p : ℚ) (io po : Bool),
      Intent.limit bk Side.buy q p io po ∈
          eliteImbPlacements fth book dB dA bq aq fq fb → q * p ≤ fq) ∧
    (∀ (fth : Bool) (book bk : ℤ) (dB dA bq aq fq fb q p : ℚ) (io po : Bool),
      Intent.limit bk Side.sell q p io po ∈
          eliteImbPlacements fth book dB dA bq aq fq fb → q ≤ fb) ∧
    (∀ (book bk : ℤ) (mB mA oq fb fq q p : ℚ) (io po : Bool),
      Intent.limit bk Side.buy q p io po ∈ eliteMMPlacements book mB mA oq fb fq →
        q * p ≤ fq) ∧
    (∀ (book bk : ℤ) (mB mA oq fb fq q p : ℚ) (io po : Bool),
      Intent.limit bk Side.sell q p io po ∈ eliteMMPlacements book mB mA oq fb fq →
        q ≤ fb) := by
  refine ⟨?_, ?_, ?_, ?_⟩
  · intro fth book bk dB dA bq aq fq fb q p io po hmem
    unfold eliteImbPlacements at hmem
    split_ifs at hmem with h1 h2 h3 <;>
      simp only [List.mem_append, List.mem_singleton, List.not_mem_nil, or_false,
        false_or, Intent.limit.injEq, side_buy_ne_sell, side_sell_ne_buy, false_and,
        and_false] at hmem
    · obtain ⟨-, -, hq, hp, -, -⟩ := hmem
      rw [hq, hp]
      linarith [h2.2.2]
    · obtain ⟨-, -, hq, hp, -, -⟩ := hmem
      rw [hq, hp]
      linarith [h2.2.2]
  · intro fth book bk dB dA bq aq fq fb q p io po hmem
    unfold eliteImbPlacements at hmem
    split_ifs at hmem with h1 h2 h3 h4 <;>
      simp only [List.mem_append, List.mem_singleton, List.not_mem_nil, or_false,
        false_or, Intent.limit.injEq, side_buy_ne_sell, side_sell_ne_buy, false_and,
        and_false] at hmem
    all_goals
      obtain ⟨-, -, hq, hp, -, -⟩ := hmem
    all_goals
      rw [hq]
    · exact h3.2.2
    · exact h4.2.2
  · intro book bk mB mA oq fb fq q p io po hmem
    unfold eliteMMPlacements at hmem
    split_ifs at hmem with h1 h2 <;>
      simp only [List.mem_append, List.mem_singleton, List.not_mem_nil, or_false,
        false_or, Intent.limit.injEq, side_buy_ne_sell, side_sell_ne_buy, false_and,
        and_false] at hmem
    all_goals
      obtain ⟨-, -, hq, hp, -, -⟩ := hmem
    all_goals
      rw [hq, hp]
    · linarith [h1.2]
    · linarith [h1.2]
  · intro book bk mB mA oq fb fq q p io po hmem
    unfold eliteMMPlacements at hmem
    split_ifs at hmem with h1 h2 h3 <;>
      simp only [List.mem_append, List.mem_singleton, List.not_mem_nil, or_false,
        false_or, Intent.limit.injEq, side_buy_ne_sell, side_sell_ne_buy, false_and,
        and_false] at hmem
    all_goals
      obtain ⟨-, -, hq, hp, -, -⟩ := hmem
    all_goals
      rw [hq]
    · exact h2.2
    · exact h3.2

/-- Witness for C10: `EliteMarketMaker` with free quote `1000`, bid
`100 x 1`: the bid is emitted (`1000 > 100`), and the theorem bounds it by
the free balance, `1 * 100 ≤ 1000`. -/
theorem C10_balance_guards_witness : (1:ℚ) * 100 ≤ 1000 := by
  apply C10_balance_guards.2.2.1 0 0 100 102 1 5 1000 1 100 false false
  unfold eliteMMPlacements
  rw [if_pos (by norm_num), if_pos (by norm_num)]
  exact List.mem_cons_self _ _

end Sn79
